/-
  Verification development for the ardor-ai-blog repository.

  Shallow embedding of:
  * `fastapi-mcp-demo/main.py` (the BMI endpoint),
  * `agentic-workflow-engine/src/config/ai_models_config.py`
    (configuration holder and content templaters),
  * `agentic-workflow-engine/src/agents/{research,writer,image}.py`
    (capability agents), and
  * `agentic-workflow-engine/examples/enhanced_demo.py`
    (the demo orchestrator pipeline and its simulation image path).

  Numbers are modelled with `Nat`/`Int`/`Rat`; the `float` arithmetic of the
  BMI endpoint is modelled over `Rat` (exact rational arithmetic), which
  agrees with the source at every input considered here, all of which are
  far from rounding ties.  Fallible code is modelled with `Except`/`Option`,
  and the external generative-AI API is modelled as an explicit oracle
  argument describing the outcome of the call.
-/
import Mathlib

namespace ArdorBlog

/-! ## BMI endpoint (`fastapi-mcp-demo/main.py`) -/

/-- Rounding to 2 decimal places (round-half-up over `Rat`).  The source's
`round(value, 2)` operates on binary floats; at every value appearing in the
claims the argument is not a rounding tie, where all common rounding modes
agree. -/
def round2 (q : ℚ) : ℚ := (⌊q * 100 + 1/2⌋ : ℤ) / 100

/-- `main.py`, `bmi`: `value = round(weight_kg / height_m ** 2, 2)`. -/
def bmiValue (weight_kg height_m : ℚ) : ℚ := round2 (weight_kg / height_m ^ 2)

/-- `main.py`, `bmi`: the assessment band chain
(`< 18.5` / `<= 24.9` / `<= 29.9` / else). -/
def bmiAssessment (value : ℚ) : String :=
  if value < 185/10 then "Underweight"
  else if value ≤ 249/10 then "Normal weight"
  else if value ≤ 299/10 then "Overweight"
  else "Obesity"

/-- `main.py`, `bmi`: the endpoint's JSON response `{bmi, assessment}`. -/
structure BMIResponse where
  bmi : ℚ
  assessment : String
  deriving DecidableEq, Repr

/-- `main.py`, `bmi`: the full endpoint computation. -/
def bmi (weight_kg height_m : ℚ) : BMIResponse :=
  { bmi := bmiValue weight_kg height_m
    assessment := bmiAssessment (bmiValue weight_kg height_m) }

/-! ## Configuration holder (`src/config/ai_models_config.py`) -/

/-- The `AIProvider` enum. -/
inductive AIProvider
  | simulation
  | openai
  | anthropic
  | google
  deriving DecidableEq, Repr

/-- `AIProvider.value`: the string value of each enum member. -/
def AIProvider.value : AIProvider → String
  | .simulation => "simulation"
  | .openai => "openai"
  | .anthropic => "anthropic"
  | .google => "google"

/-- The exceptions raised by the configuration holder: `InvalidAPIKeyError`
and `UnsupportedModelError` (both subclasses of `AIConfigError`).  The
`unsupportedModel` constructor records the agent type and offending model
named in the exception message (an empty model corresponds to the
`"No model specified"` message). -/
inductive AIConfigError
  | invalidAPIKey (provider : String)
  | unsupportedModel (agentType : String) (model : String)
  deriving DecidableEq, Repr

/-- The `api_keys` dict built in `AIConfig.__init__` from the environment
variables `OPENAI_API_KEY`, `ANTHROPIC_API_KEY` and `GOOGLE_AI_API_KEY`
(`os.getenv` returning `None` is `none`). -/
structure ApiKeys where
  openai : Option String
  anthropic : Option String
  google : Option String
  deriving DecidableEq, Repr

/-- `self.api_keys.get(provider.value)`; the dict has no `"simulation"`
entry, so that lookup yields `None`. -/
def ApiKeys.get : ApiKeys → AIProvider → Option String
  | _, .simulation => none
  | k, .openai => k.openai
  | k, .anthropic => k.anthropic
  | k, .google => k.google

/-- Shape of `self.research_config` and `self.writing_config`. -/
structure ChatConfig where
  model : String
  max_completion_tokens : ℕ
  temperature : ℚ
  simulation_mode : Bool
  deriving DecidableEq, Repr

/-- Shape of `self.image_config`. -/
structure ImageConfig where
  model : String
  size : String
  quality : String
  simulation_mode : Bool
  deriving DecidableEq, Repr

/-- The mutable state of an `AIConfig` object. -/
structure AIConfig where
  provider : AIProvider
  api_keys : ApiKeys
  research_config : ChatConfig
  writing_config : ChatConfig
  image_config : ImageConfig
  deriving DecidableEq, Repr

/-- `AIConfig.SUPPORTED_MODELS["openai"]["chat"]`. -/
def supportedChatModels : List String :=
  ["gpt-4-1106-preview", "gpt-4", "gpt-3.5-turbo"]

/-- `AIConfig.SUPPORTED_MODELS["openai"]["image"]`. -/
def supportedImageModels : List String := ["dall-e-3", "dall-e-2"]

/-- `AIConfig.__init__` applied to the environment's keys: provider
`SIMULATION`, the three default capability configs, all in simulation mode.
(The constructor's closing `_validate_configs()` call never raises, because
every config starts in simulation mode; see `mkInit_validates`.) -/
def AIConfig.mkInit (keys : ApiKeys) : AIConfig where
  provider := .simulation
  api_keys := keys
  research_config :=
    { model := "gpt-4-1106-preview", max_completion_tokens := 1500
      temperature := 3/10, simulation_mode := true }
  writing_config :=
    { model := "gpt-4-1106-preview", max_completion_tokens := 2000
      temperature := 7/10, simulation_mode := true }
  image_config :=
    { model := "dall-e-3", size := "1024x1024", quality := "standard"
      simulation_mode := true }

/-- Python's `str.startswith`, on the character sequences of the strings. -/
def pyStartsWith (s pre : String) : Bool := pre.data.isPrefixOf s.data

/-- `AIConfig.has_valid_api_key`: key present, length at least 20, and the
provider-specific prefix checks (`sk-`/`org-` for OpenAI, `sk-ant-` for
Anthropic).  Python's initial `if not key` test (None or empty string) is
subsumed by the length check. -/
def hasValidApiKey (c : AIConfig) (p : AIProvider) : Bool :=
  match c.api_keys.get p with
  | none => false
  | some key =>
    if key.length < 20 then false
    else if p == .openai && !(pyStartsWith key "sk-" || pyStartsWith key "org-") then false
    else if p == .anthropic && !(pyStartsWith key "sk-ant-") then false
    else true

/-- `AIConfig._validate_model_config`: no check in simulation mode;
otherwise the model must be nonempty (else the `"No model specified"`
`UnsupportedModelError`) and belong to the allowlist for the agent type
(`"image"` uses the image list, every other agent type the chat list). -/
def validateModelConfig (agentType model : String) (simulationMode : Bool) :
    Except AIConfigError Unit :=
  if simulationMode then .ok ()
  else if model = "" then .error (.unsupportedModel agentType model)
  else
    let models := if agentType = "image" then supportedImageModels else supportedChatModels
    if model ∈ models then .ok () else .error (.unsupportedModel agentType model)

/-- `AIConfig._validate_configs`: validates research, then writing, then
image, propagating the first exception. -/
def validateConfigs (c : AIConfig) : Except AIConfigError Unit :=
  match validateModelConfig "research" c.research_config.model
      c.research_config.simulation_mode with
  | .error e => .error e
  | .ok _ =>
    match validateModelConfig "writing" c.writing_config.model
        c.writing_config.simulation_mode with
    | .error e => .error e
    | .ok _ =>
      validateModelConfig "image" c.image_config.model c.image_config.simulation_mode

/-- The in-place mutation performed by `enable_real_ai` before it
re-validates: set `self.provider` and clear the three `simulation_mode`
flags. -/
def AIConfig.withRealMode (c : AIConfig) (p : AIProvider) : AIConfig :=
  { c with
    provider := p
    research_config := { c.research_config with simulation_mode := false }
    writing_config := { c.writing_config with simulation_mode := false }
    image_config := { c.image_config with simulation_mode := false } }

/-- `AIConfig.enable_real_ai`.  Python mutates `self` in place and only then
re-validates, so the pair returned here is (call outcome, state of the
object after the call): an `InvalidAPIKeyError` leaves the state untouched,
while an `UnsupportedModelError` from the re-validation leaves the already
performed mutations in place. -/
def enableRealAi (c : AIConfig) (p : AIProvider) :
    Except AIConfigError Unit × AIConfig :=
  if ¬ hasValidApiKey c p then (.error (.invalidAPIKey p.value), c)
  else (validateConfigs (c.withRealMode p), c.withRealMode p)

/-- The configuration states reachable through the public operations:
construction from an arbitrary environment, and any `enable_real_ai` call
(whether it returns or raises; `has_valid_api_key` does not mutate). -/
inductive ReachableConfig : AIConfig → Prop
  | init (keys : ApiKeys) : ReachableConfig (AIConfig.mkInit keys)
  | enable (c : AIConfig) (p : AIProvider) :
      ReachableConfig c → ReachableConfig (enableRealAi c p).2

instance : DecidableEq (Except AIConfigError Unit) := fun a b =>
  match a, b with
  | .ok (), .ok () => isTrue rfl
  | .error e1, .error e2 =>
    match decEq e1 e2 with
    | isTrue h => isTrue (by rw [h])
    | isFalse h => isFalse (fun hh => h (by injection hh))
  | .ok _, .error _ => isFalse (fun h => Except.noConfusion h)
  | .error _, .ok _ => isFalse (fun h => Except.noConfusion h)

/-- Concrete configuration used as a counterexample state: a well-formed
OpenAI key but a research model outside the chat allowlist. -/
def badModelConfig : AIConfig :=
  { AIConfig.mkInit { openai := some "sk-aaaaaaaaaaaaaaaaaaaaaa", anthropic := none, google := none } with
    research_config :=
      { model := "bad-model", max_completion_tokens := 1500
        temperature := 3/10, simulation_mode := true } }

/-- Concrete configuration with no credentials at all. -/
def noKeyConfig : AIConfig :=
  AIConfig.mkInit { openai := none, anthropic := none, google := none }

/-- Concrete configuration with a well-formed OpenAI key and the default
models. -/
def validKeyConfig : AIConfig :=
  AIConfig.mkInit
    { openai := some "sk-aaaaaaaaaaaaaaaaaaaaaa", anthropic := none, google := none }

/-! ## Content templaters (`ai_models_config.py`) -/

/-- The record returned by `get_enhanced_research_content` (also the shape
pydantic's `ResearchResponse` validates on the real path). -/
structure ResearchContent where
  title : String
  executive_summary : String
  key_points : List String
  keywords : List String
  research_confidence : ℚ
  methodology : String

/-- `get_enhanced_research_content(topic)`: the simulated research brief
with the topic interpolated (`topic.lower()` heads the keyword list). -/
def get_enhanced_research_content (topic : String) : ResearchContent where
  title := "Strategic Analysis: " ++ topic
  executive_summary :=
    "Comprehensive analysis of " ++ topic ++
      " reveals significant opportunities for innovation and market growth. Key technological advances and changing user behaviors are creating new possibilities for disruption and value creation."
  key_points :=
    ["Market adoption of " ++ topic ++ " technologies accelerating 45% faster than predicted",
     "Regulatory environment increasingly supportive with new frameworks",
     "Supply chain optimization creating 30-35% cost reduction opportunities",
     "Consumer trust metrics showing 82% positive sentiment",
     "Investment surge with $3.8B in new funding across sector"]
  keywords :=
    [topic.toLower, "innovation", "market growth", "technology",
     "digital transformation", "strategic analysis"]
  research_confidence := 926/1000
  methodology := "Multi-source analysis with AI-powered synthesis"

/-- The fields of the brief dict read by `get_enhanced_writing_content`
(`brief["title"]`, `brief["executive_summary"]`, `brief["key_points"]`). -/
structure WritingBrief where
  title : String
  executive_summary : String
  key_points : List String

/-- Fixed f-string segment of the article template before `{title}`. -/
def writingSeg1 : String := "\n    <h1>"

/-- Fixed segment between `{title}` and `{summary}`. -/
def writingSeg2 : String :=
  "</h1>\n    \n    <div class=\"executive-summary\">\n        <p>"

/-- Fixed segment between `{summary}` and the joined key-point list items. -/
def writingSeg3 : String :=
  "</p>\n    </div>\n    \n    <h2>Key Strategic Insights</h2>\n    <div class=\"key-insights\">\n        <ul>\n            "

/-- Fixed tail of the article template after the joined list items: the
boilerplate Detailed Analysis, Market Dynamics, Strategic Recommendations
and Conclusion sections. -/
def writingTail : String :=
  "\n        </ul>\n    </div>\n    \n    <h2>Detailed Analysis</h2>\n    <p>Our comprehensive analysis reveals a rapidly evolving landscape with significant implications for industry leaders and innovators alike. The convergence of technological advancement and market demand is creating unprecedented opportunities for organizations that can effectively navigate this transformation.</p>\n    \n    <h2>Market Dynamics</h2>\n    <p>The market is experiencing accelerated growth, driven by several key factors:</p>\n    <ul>\n        <li>Technological Innovation: Rapid advancement in core technologies</li>\n        <li>Market Demand: Growing user sophistication and expectations</li>\n        <li>Regulatory Support: Favorable policy frameworks emerging globally</li>\n        <li>Investment Climate: Strong venture capital and corporate interest</li>\n    </ul>\n    \n    <h2>Strategic Recommendations</h2>\n    <p>Organizations should consider the following strategic initiatives:</p>\n    <ol>\n        <li>Invest in technological capabilities and infrastructure</li>\n        <li>Build strategic partnerships across the ecosystem</li>\n        <li>Focus on user experience and trust-building</li>\n        <li>Develop clear regulatory compliance frameworks</li>\n    </ol>\n    \n    <h2>Conclusion</h2>\n    <p>The evolution of this space presents both challenges and opportunities. Organizations that can effectively leverage these insights while maintaining agility and innovation focus will be best positioned for success in this dynamic environment.</p>\n    "

/-- `get_enhanced_writing_content(brief)`: the article template with title,
summary and the `"".join(f"<li>{point}</li>" ...)` list interpolated. -/
def get_enhanced_writing_content (brief : WritingBrief) : String :=
  writingSeg1 ++ brief.title ++ writingSeg2 ++ brief.executive_summary ++ writingSeg3
    ++ String.join (brief.key_points.map (fun point => "<li>" ++ point ++ "</li>"))
    ++ writingTail

/-! ## Word counting (`len(article_html.split())`) -/

/-- The `str.isspace` characters relevant here (the ASCII whitespace
characters; the templates contain no other whitespace). -/
def pyIsSpace (c : Char) : Bool :=
  c = ' ' || c = '\t' || c = '\n' || c = '\r' || c = '\x0b' || c = '\x0c'

/-- Automaton counting maximal whitespace-free runs; the flag records
whether the previous character belonged to a word. -/
def countWordsAux : List Char → Bool → Nat
  | [], _ => 0
  | c :: cs, inWord =>
    if pyIsSpace c then countWordsAux cs false
    else (if inWord then 0 else 1) + countWordsAux cs true

/-- `len(s.split())`: Python's whitespace split drops empty tokens, so the
length of the list is the number of maximal whitespace-free runs. -/
def countWords (s : String) : Nat := countWordsAux s.data false

/-- Python's `str.strip()`: drop whitespace from both ends. -/
def pyStrip (s : String) : String :=
  ⟨((s.data.dropWhile fun c => pyIsSpace c).reverse.dropWhile fun c => pyIsSpace c).reverse⟩

/-! ## Capability agents (`src/agents/*.py`) -/

/-- The exceptions a `process` call can propagate: a request-validation
failure from the pydantic request constructor (wrapped into the agent's
error class), or a pydantic validation failure while constructing the
response outside any `try` block. -/
inductive AgentError
  | invalidRequest (msg : String)
  | responseValidation (msg : String)
  deriving DecidableEq, Repr

/-- Outcome of the external-API call path, as observed from `process`:
client initialization raised (`ModelInitializationError`), the client was
never created (no valid key), the HTTP call raised, the response failed
JSON parsing, or the call produced a payload (whose schema the agent still
validates). -/
inductive ApiOutcome (α : Type)
  | clientInitError
  | noClient
  | callFailed
  | invalidResponse
  | success (payload : α)
  deriving Repr

/-- `ResearchRequest`: free-form `topic`, `depth` with `ge=1, le=3`. -/
structure ResearchRequest where
  topic : String
  depth : ℤ

/-- Validation performed by `ResearchRequest(**message)`: only the bounds
on `depth`; `topic` has no validator and may be any string. -/
def validateResearchRequest (topic : String) (depth : ℤ) :
    Except String ResearchRequest :=
  if 1 ≤ depth ∧ depth ≤ 3 then .ok ⟨topic, depth⟩
  else .error "Invalid research request"

/-- The schema validation `ResearchResponse(**result)` applies to a parsed
real-API payload: at least 3 key points, at least 1 keyword, confidence in
[0, 1]. -/
def researchResponseValid (r : ResearchContent) : Prop :=
  3 ≤ r.key_points.length ∧ 1 ≤ r.keywords.length
    ∧ 0 ≤ r.research_confidence ∧ r.research_confidence ≤ 1

instance (r : ResearchContent) : Decidable (researchResponseValid r) := by
  unfold researchResponseValid; infer_instance

/-- `ResearchAgent.process` after request validation.  In real mode every
failure of the external path (`except (AIConfigError,
ModelInitializationError)` and `except Exception`) falls through to the
simulation block; only a parsed, schema-valid payload is returned as is. -/
def researchProcessValidated (simMode : Bool) (topic : String)
    (api : ApiOutcome ResearchContent) : ResearchContent :=
  if ¬ simMode then
    match api with
    | .success r =>
      if researchResponseValid r then r else get_enhanced_research_content topic
    | _ => get_enhanced_research_content topic
  else get_enhanced_research_content topic

/-- `ResearchAgent.process` including the `ResearchRequest(**message)`
validation (its failure raises `ResearchAgentError`). -/
def researchProcess (topic : String) (depth : ℤ) (simMode : Bool)
    (api : ApiOutcome ResearchContent) : Except AgentError ResearchContent :=
  match validateResearchRequest topic depth with
  | .error e => .error (.invalidRequest e)
  | .ok req => .ok (researchProcessValidated simMode req.topic api)

/-- `WriterRequest` after pydantic validation (title and summary stripped
and non-empty, at least one key point). -/
structure WriterRequest where
  title : String
  executive_summary : String
  key_points : List String
  keywords : List String
  tone : String

/-- The `WriterRequest(**message)` validation: `title_not_empty` and
`summary_not_empty` strip their field and reject blank values, and
`key_points` requires `min_items=1`.  (pydantic aggregates all field
errors; this returns the first.) -/
def validateWriterRequest (title executive_summary : String)
    (key_points keywords : List String) (tone : String) :
    Except String WriterRequest :=
  if pyStrip title = "" then .error "Title cannot be empty"
  else if pyStrip executive_summary = "" then .error "Executive summary cannot be empty"
  else if key_points.length < 1 then .error "key_points requires at least 1 item"
  else .ok ⟨pyStrip title, pyStrip executive_summary, key_points, keywords, tone⟩

/-- `WriterResponse`: `word_count` is declared with `ge=100`. -/
structure WriterResponse where
  article_text : String
  keywords : List String
  word_count : ℕ
  writing_style : String

/-- The `WriterResponse(article_text=…, word_count=len(….split()), …)`
construction, including pydantic's `ge=100` re-validation of the word
count. -/
def mkWriterResponse (article_text : String) (keywords : List String)
    (tone : String) : Except AgentError WriterResponse :=
  if countWords article_text < 100 then
    .error (.responseValidation "word_count must be >= 100")
  else .ok ⟨article_text, keywords, countWords article_text, tone⟩

/-- The writer's simulation block: template the article from the request's
fields and build the response (this `WriterResponse` construction sits
outside any `try`, so its validation error would propagate). -/
def writerSimulationBlock (req : WriterRequest) : Except AgentError WriterResponse :=
  mkWriterResponse
    (get_enhanced_writing_content ⟨req.title, req.executive_summary, req.key_points⟩)
    req.keywords req.tone

/-- `WriterAgent.process` after request validation: in real mode a
successful call builds the response from the returned article (any
exception there, including the `ge=100` validation failure, is caught by
`except Exception` and falls through to simulation); all other outcomes
fall through to the simulation block. -/
def writerProcessValidated (simMode : Bool) (req : WriterRequest)
    (api : ApiOutcome String) : Except AgentError WriterResponse :=
  if ¬ simMode then
    match api with
    | .success article_html =>
      match mkWriterResponse article_html req.keywords req.tone with
      | .ok r => .ok r
      | .error _ => writerSimulationBlock req
    | _ => writerSimulationBlock req
  else writerSimulationBlock req

/-- `ImageRequest` after pydantic validation. -/
structure ImageRequest where
  prompt : String
  style : String
  size : String
  quality : String

/-- The `ImageRequest(**message)` validation: stripped non-empty prompt,
size and quality from their fixed enumerations. -/
def validateImageRequest (prompt style size quality : String) :
    Except String ImageRequest :=
  if pyStrip prompt = "" then .error "Prompt cannot be empty"
  else if size ∉ ["1024x1024", "1024x1792", "1792x1024"] then
    .error "Size must be one of the valid sizes"
  else if quality ∉ ["standard", "hd"] then
    .error "Quality must be one of the valid qualities"
  else .ok ⟨pyStrip prompt, style, size, quality⟩

/-- `ImageResponse` of the library image agent (`src/agents/image.py`);
`image_data` holds the base64 payload, or the simulation placeholder. -/
structure ImageResponse where
  image_data : String
  prompt_used : String
  style_used : String
  dimensions : String
  deriving DecidableEq, Repr

/-- `ImageAgent.process` (library agent, `src/agents/image.py`) after
request validation: the simulation block returns the literal placeholder
`b"SIMULATED_IMAGE_DATA"` regardless of the request. -/
def imageProcessValidated (simMode : Bool) (req : ImageRequest)
    (api : ApiOutcome String) : ImageResponse :=
  if ¬ simMode then
    match api with
    | .success image_data => ⟨image_data, req.prompt, req.style, req.size⟩
    | _ => ⟨"SIMULATED_IMAGE_DATA", req.prompt, req.style, req.size⟩
  else ⟨"SIMULATED_IMAGE_DATA", req.prompt, req.style, req.size⟩

/-! ## MD5 (the `hashlib.md5` content hash used by the demo image agent),
implemented over byte lists with `Nat` arithmetic mod `2^32` (RFC 1321). -/

/-- 32-bit left rotation. -/
def rotl32 (x s : Nat) : Nat := ((x <<< s) ||| (x >>> (32 - s))) % 2^32

/-- The 64 MD5 sine-derived round constants. -/
def md5K : List Nat :=
  [0xd76aa478, 0xe8c7b756, 0x242070db, 0xc1bdceee,
   0xf57c0faf, 0x4787c62a, 0xa8304613, 0xfd469501,
   0x698098d8, 0x8b44f7af, 0xffff5bb1, 0x895cd7be,
   0x6b901122, 0xfd987193, 0xa679438e, 0x49b40821,
   0xf61e2562, 0xc040b340, 0x265e5a51, 0xe9b6c7aa,
   0xd62f105d, 0x02441453, 0xd8a1e681, 0xe7d3fbc8,
   0x21e1cde6, 0xc33707d6, 0xf4d50d87, 0x455a14ed,
   0xa9e3e905, 0xfcefa3f8, 0x676f02d9, 0x8d2a4c8a,
   0xfffa3942, 0x8771f681, 0x6d9d6122, 0xfde5380c,
   0xa4beea44, 0x4bdecfa9, 0xf6bb4b60, 0xbebfbc70,
   0x289b7ec6, 0xeaa127fa, 0xd4ef3085, 0x04881d05,
   0xd9d4d039, 0xe6db99e5, 0x1fa27cf8, 0xc4ac5665,
   0xf4292244, 0x432aff97, 0xab9423a7, 0xfc93a039,
   0x655b59c3, 0x8f0ccc92, 0xffeff47d, 0x85845dd1,
   0x6fa87e4f, 0xfe2ce6e0, 0xa3014314, 0x4e0811a1,
   0xf7537e82, 0xbd3af235, 0x2ad7d2bb, 0xeb86d391]

/-- The 64 MD5 per-round rotation amounts. -/
def md5S : List Nat :=
  [7, 12, 17, 22, 7, 12, 17, 22, 7, 12, 17, 22, 7, 12, 17, 22,
   5, 9, 14, 20, 5, 9, 14, 20, 5, 9, 14, 20, 5, 9, 14, 20,
   4, 11, 16, 23, 4, 11, 16, 23, 4, 11, 16, 23, 4, 11, 16, 23,
   6, 10, 15, 21, 6, 10, 15, 21, 6, 10, 15, 21, 6, 10, 15, 21]

/-- The MD5 round mixing functions F/G/H/I by round index. -/
def md5F (b c d i : Nat) : Nat :=
  if i < 16 then (b &&& c) ||| ((b ^^^ 0xffffffff) &&& d)
  else if i < 32 then (d &&& b) ||| ((d ^^^ 0xffffffff) &&& c)
  else if i < 48 then b ^^^ c ^^^ d
  else c ^^^ (b ||| (d ^^^ 0xffffffff))

/-- The MD5 message-word schedule by round index. -/
def md5G (i : Nat) : Nat :=
  if i < 16 then i
  else if i < 32 then (5*i + 1) % 16
  else if i < 48 then (3*i + 5) % 16
  else (7*i) % 16

/-- One MD5 round on the state (a, b, c, d). -/
def md5Step (M : Nat → Nat) (st : Nat × Nat × Nat × Nat) (i : Nat) :
    Nat × Nat × Nat × Nat :=
  let a := st.1
  let b := st.2.1
  let c := st.2.2.1
  let d := st.2.2.2
  let f := (md5F b c d i + a + md5K.getD i 0 + M (md5G i)) % 2^32
  (d, (b + rotl32 f (md5S.getD i 0)) % 2^32, b, c)

/-- One 512-bit block: 64 rounds, then add the incoming state. -/
def md5Block (st : Nat × Nat × Nat × Nat) (M : Nat → Nat) :
    Nat × Nat × Nat × Nat :=
  let r := (List.range 64).foldl (md5Step M) st
  ((st.1 + r.1) % 2^32, (st.2.1 + r.2.1) % 2^32,
   (st.2.2.1 + r.2.2.1) % 2^32, (st.2.2.2 + r.2.2.2) % 2^32)

/-- Little-endian 32-bit words of a 64-byte block. -/
def toWords (block : List Nat) (g : Nat) : Nat :=
  block.getD (4*g) 0 + block.getD (4*g + 1) 0 * 256
    + block.getD (4*g + 2) 0 * 65536 + block.getD (4*g + 3) 0 * 16777216

/-- Fold the blocks of the padded message into the state. -/
def md5ProcessBlocks (st : Nat × Nat × Nat × Nat) (bytes : List Nat) :
    Nat → Nat × Nat × Nat × Nat
  | 0 => st
  | n+1 => md5ProcessBlocks (md5Block st (toWords (bytes.take 64))) (bytes.drop 64) n

/-- `n` little-endian bytes of `x`. -/
def leBytes : Nat → Nat → List Nat
  | 0, _ => []
  | n+1, x => (x % 256) :: leBytes n (x / 256)

/-- The 16-byte MD5 digest: pad with `0x80`, zeros to 56 mod 64, and the
64-bit little-endian bit length, then fold the blocks. -/
def md5Digest (msg : List Nat) : List Nat :=
  let padded := msg ++ [0x80]
      ++ List.replicate ((56 + 64 - ((msg.length + 1) % 64)) % 64) 0
      ++ leBytes 8 ((msg.length * 8) % 2^64)
  let st := md5ProcessBlocks (0x67452301, 0xefcdab89, 0x98badcfe, 0x10325476)
      padded (padded.length / 64)
  leBytes 4 st.1 ++ leBytes 4 st.2.1 ++ leBytes 4 st.2.2.1 ++ leBytes 4 st.2.2.2

/-- The lowercase hex digit for `n < 16`, from its code point. -/
def hexDigit (n : Nat) : Char :=
  if n < 10 then Char.ofNat (48 + n) else Char.ofNat (87 + n)

/-- `hashlib.md5(...).hexdigest()`: the 32-character lowercase hex string. -/
def md5Hex (msg : List Nat) : String :=
  ⟨(md5Digest msg).foldr (fun b acc => hexDigit (b / 16) :: hexDigit (b % 16) :: acc) []⟩

/-- UTF-8 encoding of one character (Python `str.encode()`). -/
def charUtf8 (c : Char) : List Nat :=
  let n := c.toNat
  if n < 0x80 then [n]
  else if n < 0x800 then [0xC0 ||| (n >>> 6), 0x80 ||| (n &&& 0x3F)]
  else if n < 0x10000 then
    [0xE0 ||| (n >>> 12), 0x80 ||| ((n >>> 6) &&& 0x3F), 0x80 ||| (n &&& 0x3F)]
  else
    [0xF0 ||| (n >>> 18), 0x80 ||| ((n >>> 12) &&& 0x3F),
     0x80 ||| ((n >>> 6) &&& 0x3F), 0x80 ||| (n &&& 0x3F)]

/-- UTF-8 encoding of a string (Python `str.encode()`). -/
def utf8Bytes (s : String) : List Nat :=
  s.data.foldr (fun c acc => charUtf8 c ++ acc) []

/-! ## Demo orchestrator pipeline (`examples/enhanced_demo.py`) -/

/-- Python `" ".join(...)`. -/
def pyJoinSpace : List String → String
  | [] => ""
  | [s] => s
  | s :: rest => s ++ " " ++ pyJoinSpace rest

/-- Python `", ".join(...)`. -/
def pyJoinComma : List String → String
  | [] => ""
  | [s] => s
  | s :: rest => s ++ ", " ++ pyJoinComma rest

/-- The dict returned by the demo `ImageAgent._generate_simulation_image`. -/
structure SimImage where
  image_url : String
  alt_text : String
  dimensions : String
  format : String
  generation_method : String
  deriving DecidableEq, Repr

/-- `ImageAgent._generate_simulation_image(keywords)` of the demo: the seed
is the first 12 hex digits of the MD5 of the space-joined first three
keywords, plugged into a Picsum placeholder URL. -/
def generateSimulationImage (keywords : List String) : SimImage :=
  let keyword_text := pyJoinSpace (keywords.take 3)
  let seed : String := ⟨((md5Hex (utf8Bytes keyword_text)).data.take 12)⟩
  { image_url := "https://picsum.photos/seed/" ++ seed ++ "/800/400"
    alt_text := "Professional illustration representing " ++ keyword_text
    dimensions := "800x400"
    format := "JPEG"
    generation_method := "Procedural (DALL-E 3 Ready)" }

/-- Python's `f"{q:.1f}"` for the non-negative rationals occurring here
(the confidence percentage); round-half-up to one decimal.  (The source
formats a binary float; at 92.6 the two agree.) -/
def format1f (q : ℚ) : String :=
  let n := (⌊q * 10 + 1/2⌋ : ℤ).toNat
  toString (n / 10) ++ "." ++ toString (n % 10)

/-- Fixed segments of the `_create_enhanced_html` f-string, in source
order, with the interpolation sites removed (CSS braces `{{`/`}}` are the
literal brace characters). -/
def htmlSeg0 : String :=
  "\n        <!DOCTYPE html>\n        <html lang=\"en\">\n        <head>\n            <meta charset=\"UTF-8\">\n            <meta name=\"viewport\" content=\"width=device-width, initial-scale=1.0\">\n            <title>"

/-- Segment after `{title}` up to `{image_url}` (the stylesheet). -/
def htmlSeg1 : String :=
  "</title>\n            <style>\n                body \x7b\n                    font-family: -apple-system, BlinkMacSystemFont, \"Segoe UI\", Roboto, Helvetica, Arial, sans-serif;\n                    line-height: 1.6;\n                    max-width: 800px;\n                    margin: 0 auto;\n                    padding: 20px;\n                    color: #333;\n                \x7d\n                .header-image \x7b\n                    width: 100%;\n                    max-height: 400px;\n                    object-fit: cover;\n                    border-radius: 8px;\n                    margin: 20px 0;\n                \x7d\n                .ai-attribution \x7b\n                    background: #f8f9fa;\n                    border-radius: 8px;\n                    padding: 15px;\n                    margin: 20px 0;\n                    font-size: 0.9em;\n                    color: #666;\n                \x7d\n                .content \x7b\n                    margin-top: 30px;\n                \x7d\n                h1 \x7b\n                    color: #2c3e50;\n                    margin-bottom: 1em;\n                \x7d\n                h2 \x7b\n                    color: #34495e;\n                    margin-top: 1.5em;\n                \x7d\n                ul \x7b\n                    padding-left: 1.5em;\n                \x7d\n                li \x7b\n                    margin-bottom: 0.5em;\n                \x7d\n                .executive-summary \x7b\n                    font-size: 1.1em;\n                    color: #444;\n                    border-left: 4px solid #3498db;\n                    padding-left: 1em;\n                    margin: 1.5em 0;\n                \x7d\n                .key-points \x7b\n                    background: #f7f9fc;\n                    padding: 1.5em;\n                    border-radius: 8px;\n                    margin: 1.5em 0;\n                \x7d\n                .methodology \x7b\n                    font-style: italic;\n                    color: #666;\n                    margin-top: 2em;\n                    padding-top: 1em;\n                    border-top: 1px solid #eee;\n                \x7d\n            </style>\n        </head>\n        <body>\n            <img src=\""

/-- Segment between `{image_url}` and `{alt_text}`. -/
def htmlSeg2 : String := "\" \n                 alt=\""

/-- Segment between `{alt_text}` and the research model label. -/
def htmlSeg3 : String :=
  "\"\n                 class=\"header-image\">\n            \n            <div class=\"ai-attribution\">\n                <h4>🤖 AI Model Attribution</h4>\n                <p>This content was generated using multiple AI models:</p>\n                <ul>\n                    <li>Research Analysis: "

/-- Segment between the research and writer model labels. -/
def htmlSeg4 : String := "</li>\n                    <li>Content Generation: "

/-- Segment between the writer and image model labels. -/
def htmlSeg5 : String := "</li>\n                    <li>Image Creation: "

/-- Segment between the image model label and the confidence figure. -/
def htmlSeg6 : String :=
  "</li>\n                </ul>\n                <p>Content Quality Score: "

/-- Segment between the confidence figure and the `<h1>` title. -/
def htmlSeg7 : String :=
  "%</p>\n            </div>\n            \n            <div class=\"content\">\n                <h1>"

/-- Segment between the title and the executive summary. -/
def htmlSeg8 : String :=
  "</h1>\n                \n                <div class=\"executive-summary\">\n                    <p>"

/-- Segment between the summary and the key-point list items. -/
def htmlSeg9 : String :=
  "</p>\n                </div>\n\n                <div class=\"key-points\">\n                    <h2>Key Insights</h2>\n                    <ul>\n                        "

/-- Segment between the key points and the article body. -/
def htmlSeg10 : String :=
  "\n                    </ul>\n                </div>\n\n                "

/-- Segment between the article body and the methodology note. -/
def htmlSeg11 : String :=
  "\n                \n                <div class=\"methodology\">\n                    <p><strong>Research Methodology:</strong> "

/-- Segment between the methodology and the timestamp. -/
def htmlSeg12 : String :=
  "</p>\n                </div>\n            </div>\n            \n            <footer class=\"ai-attribution\">\n                <p><strong>Generated:</strong> "

/-- Segment between the timestamp and the keyword list. -/
def htmlSeg13 : String := "</p>\n                <p><strong>Keywords:</strong> "

/-- Closing segment of the document. -/
def htmlSeg14 : String :=
  "</p>\n            </footer>\n        </body>\n        </html>\n        "

/-- `OrchestratorAgent._create_enhanced_html`: the document assembly, a pure
string template over the three stage results, their model labels, and the
`datetime.now()` timestamp (passed in as `ts`). -/
def createEnhancedHtml (research : ResearchContent) (writerRes : WriterResponse)
    (image : SimImage) (researchModel writerModel imageModel ts : String) : String :=
  htmlSeg0 ++ research.title ++ htmlSeg1 ++ image.image_url ++ htmlSeg2
    ++ image.alt_text ++ htmlSeg3 ++ researchModel ++ htmlSeg4 ++ writerModel
    ++ htmlSeg5 ++ imageModel ++ htmlSeg6
    ++ format1f (research.research_confidence * 100) ++ htmlSeg7
    ++ research.title ++ htmlSeg8 ++ research.executive_summary ++ htmlSeg9
    ++ String.join (research.key_points.map (fun point => "<li>" ++ point ++ "</li>"))
    ++ htmlSeg10 ++ writerRes.article_text ++ htmlSeg11 ++ research.methodology
    ++ htmlSeg12 ++ ts ++ htmlSeg13 ++ pyJoinComma research.keywords ++ htmlSeg14

/-- The observable outcome of one demo orchestrator run: the rendered
document, the three per-stage `model_used` labels, and the keyword list
rendered into the document footer. -/
structure DemoPipelineOutput where
  html : String
  research_model_used : String
  writer_model_used : String
  image_model_used : String
  keywords : List String

/-- `OrchestratorAgent.process(topic)` of `enhanced_demo.py` with all three
capabilities in simulation mode: research templates the brief, the writer
templates the article over it (keywords taken from the brief, style
`"professional"`), the image agent derives the Picsum placeholder from the
writer's keywords, and the document is assembled; every stage labels its
message `"Enhanced Simulation"`. -/
def orchestratorRunSim (topic ts : String) : DemoPipelineOutput :=
  let brief := get_enhanced_research_content topic
  let article := get_enhanced_writing_content
    ⟨brief.title, brief.executive_summary, brief.key_points⟩
  let writerRes : WriterResponse :=
    ⟨article, brief.keywords, countWords article, "professional"⟩
  let image := generateSimulationImage writerRes.keywords
  { html := createEnhancedHtml brief writerRes image
      "Enhanced Simulation" "Enhanced Simulation" "Enhanced Simulation" ts
    research_model_used := "Enhanced Simulation"
    writer_model_used := "Enhanced Simulation"
    image_model_used := "Enhanced Simulation"
    keywords := brief.keywords }

/-- `pat` occurs as a contiguous substring of `s`. -/
def strContains (s pat : String) : Prop :=
  ∃ a b : List Char, s.data = a ++ pat.data ++ b

/-- Characterization of the four assessment bands actually computed by the
`bmi` endpoint's if/elif chain. -/
theorem bmiAssessment_chars (v : ℚ) :
    (bmiAssessment v = "Underweight" ↔ v < 185/10)
    ∧ (bmiAssessment v = "Normal weight" ↔ 185/10 ≤ v ∧ v ≤ 249/10)
    ∧ (bmiAssessment v = "Overweight" ↔ 249/10 < v ∧ v ≤ 299/10)
    ∧ (bmiAssessment v = "Obesity" ↔ 299/10 < v) := by
  unfold bmiAssessment
  split_ifs with h1 h2 h3 <;>
    refine ⟨?_, ?_, ?_, ?_⟩ <;>
    constructor <;> intro hx <;>
    first
    | rfl
    | (exfalso; revert hx; decide)
    | (exact ⟨by linarith, by linarith⟩)
    | linarith

/-- C3, counterexample: at `weight_kg = 29.9`, `height_m = 1.0` the endpoint
computes `bmi = 29.9` and answers `"Overweight"`, yet the claim's bands
require `"Obesity"` for every `bmi ≥ 29.9` (and `"Overweight"` only for
`bmi < 29.9`). -/
theorem claim3_counterexample :
    (bmi (299/10) 1).bmi ≥ 299/10 ∧ (bmi (299/10) 1).assessment = "Overweight"
    ∧ (bmi (299/10) 1).assessment ≠ "Obesity" := by
  have hv : bmiValue (299/10) 1 = 299/10 := by norm_num [bmiValue, round2]
  have ha : (bmi (299/10) 1).assessment = "Overweight" :=
    ((bmiAssessment_chars (bmiValue (299/10) 1)).2.2.1).mpr (by rw [hv]; norm_num)
  exact ⟨le_of_eq hv.symm, ha, by rw [ha]; decide⟩

/-- C3 (amended): the endpoint returns `bmi = round2 (weight/height²)`, and
the bands are: `"Underweight"` iff `bmi < 18.5`, `"Normal weight"` iff
`18.5 ≤ bmi ≤ 24.9`, `"Overweight"` iff `24.9 < bmi ≤ 29.9`, and `"Obesity"`
iff `bmi > 29.9`; the two concrete examples of the spec hold. -/
theorem claim3_bmi_bands (w h : ℚ) (hw : 0 < w) (hh : 0 < h) :
    (bmi w h).bmi = round2 (w / h ^ 2)
    ∧ ((bmi w h).assessment = "Underweight" ↔ (bmi w h).bmi < 185/10)
    ∧ ((bmi w h).assessment = "Normal weight" ↔
        185/10 ≤ (bmi w h).bmi ∧ (bmi w h).bmi ≤ 249/10)
    ∧ ((bmi w h).assessment = "Overweight" ↔
        249/10 < (bmi w h).bmi ∧ (bmi w h).bmi ≤ 299/10)
    ∧ ((bmi w h).assessment = "Obesity" ↔ 299/10 < (bmi w h).bmi)
    ∧ bmi (705/10) (175/100) = ⟨2302/100, "Normal weight"⟩
    ∧ bmi 50 (18/10) = ⟨1543/100, "Underweight"⟩ := by
  obtain ⟨c1, c2, c3, c4⟩ := bmiAssessment_chars (bmiValue w h)
  refine ⟨rfl, c1, c2, c3, c4, ?_, ?_⟩
  · have hv : bmiValue (705/10) (175/100) = 2302/100 := by norm_num [bmiValue, round2]
    have ha : bmiAssessment (bmiValue (705/10) (175/100)) = "Normal weight" :=
      ((bmiAssessment_chars _).2.1).mpr (by rw [hv]; norm_num)
    show BMIResponse.mk (bmiValue _ _) (bmiAssessment (bmiValue _ _)) = _
    rw [ha, hv]
  · have hv : bmiValue 50 (18/10) = 1543/100 := by norm_num [bmiValue, round2]
    have ha : bmiAssessment (bmiValue 50 (18/10)) = "Underweight" :=
      ((bmiAssessment_chars _).1).mpr (by rw [hv]; norm_num)
    show BMIResponse.mk (bmiValue _ _) (bmiAssessment (bmiValue _ _)) = _
    rw [ha, hv]

/-- C3, witness: the amended theorem applied at `weight = 70.5`, `height = 1.75`. -/
theorem claim3_bmi_bands_witness :
    bmi (705/10) (175/100) = ⟨2302/100, "Normal weight"⟩ :=
  (claim3_bmi_bands (705/10) (175/100) (by norm_num) (by norm_num)).2.2.2.2.2.1

/-- In non-simulation mode, `_validate_model_config` reduces to an allowlist
membership test (the empty model is in neither allowlist, so the
`"No model specified"` branch agrees with the membership formulation). -/
theorem vmc_false_cases (a m : String) :
    validateModelConfig a m false =
      (if m ∈ (if a = "image" then supportedImageModels else supportedChatModels)
       then .ok () else .error (.unsupportedModel a m)) := by
  unfold validateModelConfig
  by_cases hm : m = ""
  · subst hm
    by_cases ha : a = "image" <;>
      simp [ha, supportedImageModels, supportedChatModels]
  · simp [hm]

/-- Every exception `_validate_model_config` raises is an
`UnsupportedModelError` naming its agent type and model. -/
theorem vmc_error_shape (a m : String) (sm : Bool) (e : AIConfigError)
    (h : validateModelConfig a m sm = .error e) : e = .unsupportedModel a m := by
  unfold validateModelConfig at h
  repeat' split at h
  all_goals try (by_cases hmem : m ∈ supportedImageModels <;> simp_all)
  all_goals try (by_cases hmem : m ∈ supportedChatModels <;> simp_all)

/-- Every exception `_validate_configs` raises is an `UnsupportedModelError`. -/
theorem validateConfigs_error_shape (c : AIConfig) (e : AIConfigError)
    (h : validateConfigs c = .error e) : ∃ a m, e = .unsupportedModel a m := by
  unfold validateConfigs at h
  split at h
  · rename_i e1 heq
    cases h
    exact ⟨_, _, vmc_error_shape _ _ _ _ heq⟩
  · split at h
    · rename_i e1 heq
      cases h
      exact ⟨_, _, vmc_error_shape _ _ _ _ heq⟩
    · exact ⟨_, _, vmc_error_shape _ _ _ _ h⟩

/-- After the `enable_real_ai` mutation, `_validate_configs` succeeds exactly
when all three configured models are in their allowlists. -/
theorem validateConfigs_withRealMode_ok (c : AIConfig) (p : AIProvider) :
    validateConfigs (c.withRealMode p) = .ok () ↔
      (c.research_config.model ∈ supportedChatModels
       ∧ c.writing_config.model ∈ supportedChatModels
       ∧ c.image_config.model ∈ supportedImageModels) := by
  have e1 : (c.withRealMode p).research_config.simulation_mode = false := rfl
  have e2 : (c.withRealMode p).writing_config.simulation_mode = false := rfl
  have e3 : (c.withRealMode p).image_config.simulation_mode = false := rfl
  have m1 : (c.withRealMode p).research_config.model = c.research_config.model := rfl
  have m2 : (c.withRealMode p).writing_config.model = c.writing_config.model := rfl
  have m3 : (c.withRealMode p).image_config.model = c.image_config.model := rfl
  unfold validateConfigs
  rw [e1, e2, e3, m1, m2, m3,
    vmc_false_cases, vmc_false_cases, vmc_false_cases]
  by_cases h1 : c.research_config.model ∈ supportedChatModels <;>
    by_cases h2 : c.writing_config.model ∈ supportedChatModels <;>
    by_cases h3 : c.image_config.model ∈ supportedImageModels <;>
    simp [h1, h2, h3]

/-- `enable_real_ai` never changes any capability's `model` field. -/
theorem enableRealAi_preserves_models (c : AIConfig) (p : AIProvider) :
    (enableRealAi c p).2.research_config.model = c.research_config.model
    ∧ (enableRealAi c p).2.writing_config.model = c.writing_config.model
    ∧ (enableRealAi c p).2.image_config.model = c.image_config.model := by
  unfold enableRealAi
  split_ifs <;> exact ⟨rfl, rfl, rfl⟩

/-- When all three configured models are in their allowlists,
`enable_real_ai` cannot raise `UnsupportedModelError`. -/
theorem enableRealAi_no_unsupported (c : AIConfig)
    (hr : c.research_config.model ∈ supportedChatModels)
    (hw : c.writing_config.model ∈ supportedChatModels)
    (hi : c.image_config.model ∈ supportedImageModels) :
    ∀ p a m, (enableRealAi c p).1 ≠ .error (.unsupportedModel a m) := by
  intro p a m h
  unfold enableRealAi at h
  split_ifs at h
  · have hok : validateConfigs (c.withRealMode p) = .ok () :=
      (validateConfigs_withRealMode_ok c p).mpr ⟨hr, hw, hi⟩
    exact Except.noConfusion (hok.symm.trans h)
  · simp at h

/-- `has_valid_api_key` returns `False` exactly when no credential is
registered for the provider, or the credential fails the minimum-length
check (`len < 20`), or it fails the provider-specific prefix check. -/
theorem hasValidApiKey_false_iff (c : AIConfig) (p : AIProvider) :
    hasValidApiKey c p = false ↔
      c.api_keys.get p = none
      ∨ ∃ key, c.api_keys.get p = some key ∧
          (key.length < 20
           ∨ (p = .openai ∧ pyStartsWith key "sk-" = false ∧ pyStartsWith key "org-" = false)
           ∨ (p = .anthropic ∧ pyStartsWith key "sk-ant-" = false)) := by
  cases p <;> cases hk : c.api_keys.get _ <;>
    simp only [hasValidApiKey, hk] <;>
    simp_all
  all_goals rename_i key
  · by_cases hp : (pyStartsWith key "sk-" = false ∧ pyStartsWith key "org-" = false) <;>
      simp [hp]
  · by_cases hp : pyStartsWith key "sk-ant-" = false <;>
      simp [hp]

/-- C2: `enable_real_ai(provider)` raises `InvalidAPIKeyError` exactly when
`has_valid_api_key(provider)` is false (no registered credential, or one
failing the length/prefix checks); given a valid credential it raises
`UnsupportedModelError` exactly when some capability's configured model is
outside that capability's allowlist; and whenever it returns, all three
capability configs end with `simulation_mode = false`. -/
theorem claim2_enable_real_ai (c : AIConfig) (p : AIProvider) :
    (hasValidApiKey c p = false ↔
      (enableRealAi c p).1 = .error (.invalidAPIKey p.value))
    ∧ (hasValidApiKey c p = true →
        ((∃ a m, (enableRealAi c p).1 = .error (.unsupportedModel a m)) ↔
          (c.research_config.model ∉ supportedChatModels
           ∨ c.writing_config.model ∉ supportedChatModels
           ∨ c.image_config.model ∉ supportedImageModels)))
    ∧ (∀ u, (enableRealAi c p).1 = .ok u →
        (enableRealAi c p).2.research_config.simulation_mode = false
        ∧ (enableRealAi c p).2.writing_config.simulation_mode = false
        ∧ (enableRealAi c p).2.image_config.simulation_mode = false)
    ∧ (hasValidApiKey c p = false ↔
        c.api_keys.get p = none
        ∨ ∃ key, c.api_keys.get p = some key ∧
            (key.length < 20
             ∨ (p = .openai ∧ pyStartsWith key "sk-" = false ∧ pyStartsWith key "org-" = false)
             ∨ (p = .anthropic ∧ pyStartsWith key "sk-ant-" = false))) := by
  refine ⟨?_, ?_, ?_, hasValidApiKey_false_iff c p⟩
  · constructor
    · intro hv
      unfold enableRealAi
      rw [if_pos (by simp [hv])]
    · intro h
      by_contra hv
      have hv' : hasValidApiKey c p = true := by
        cases hb : hasValidApiKey c p
        · exact absurd hb hv
        · rfl
      unfold enableRealAi at h
      rw [if_neg (by simp [hv'])] at h
      obtain ⟨a, m, hh⟩ := validateConfigs_error_shape _ _ h
      exact AIConfigError.noConfusion hh
  · intro hv
    unfold enableRealAi
    rw [if_neg (by simp [hv])]
    constructor
    · rintro ⟨a, m, h⟩
      by_contra hcon
      push_neg at hcon
      have hok : validateConfigs (c.withRealMode p) = .ok () :=
        (validateConfigs_withRealMode_ok c p).mpr hcon
      exact Except.noConfusion (hok.symm.trans h)
    · intro hbad
      cases he : validateConfigs (c.withRealMode p) with
      | ok u =>
        exfalso
        have := (validateConfigs_withRealMode_ok c p).mp (by rw [he])
        tauto
      | error e =>
        obtain ⟨a, m, hm⟩ := validateConfigs_error_shape _ _ he
        exact ⟨a, m, by rw [hm]⟩
  · intro u hok
    unfold enableRealAi at hok ⊢
    split_ifs at hok ⊢ with hcond
    exact ⟨rfl, rfl, rfl⟩

/-- C2, witness: applied at a configuration with no keys (credential error),
at one with a valid key and a bad research model (model-support error), and
at one with a valid key and the default models (success flips all three
simulation flags off). -/
theorem claim2_enable_real_ai_witness :
    (enableRealAi noKeyConfig .openai).1 = .error (.invalidAPIKey AIProvider.openai.value)
    ∧ (∃ a m, (enableRealAi badModelConfig .openai).1 = .error (.unsupportedModel a m))
    ∧ (enableRealAi validKeyConfig .openai).2.research_config.simulation_mode = false :=
  ⟨(claim2_enable_real_ai noKeyConfig .openai).1.mp (by decide),
   ((claim2_enable_real_ai badModelConfig .openai).2.1 (by decide)).mpr
     (Or.inl (by decide)),
   ((claim2_enable_real_ai validKeyConfig .openai).2.2.1 () (by decide)).1⟩

/-- C8, counterexample: from a state with a valid OpenAI key but a research
model outside the allowlist, `enable_real_ai` raises `UnsupportedModelError`
and the observable state afterwards has `simulation_mode = false` (and the
provider switched), so a configuration error does not leave the state
unchanged. -/
theorem claim8_counterexample :
    badModelConfig.research_config.simulation_mode = true
    ∧ badModelConfig.provider = .simulation
    ∧ (enableRealAi badModelConfig .openai).1 =
        .error (.unsupportedModel "research" "bad-model")
    ∧ (enableRealAi badModelConfig .openai).2.research_config.simulation_mode = false
    ∧ (enableRealAi badModelConfig .openai).2.provider = .openai
    ∧ (enableRealAi badModelConfig .openai).2 ≠ badModelConfig := by
  refine ⟨rfl, rfl, by decide, by decide, by decide, fun h => ?_⟩
  have := congrArg (fun s => s.research_config.simulation_mode) h
  simp only at this
  rw [show (enableRealAi badModelConfig .openai).2.research_config.simulation_mode
        = false from by decide] at this
  exact Bool.noConfusion (this.trans (show badModelConfig.research_config.simulation_mode = true from rfl))

/-- C8 (amended): `enable_real_ai` is atomic on the credential error — an
`InvalidAPIKeyError` leaves the state unchanged — but not on the
model-support error: when `UnsupportedModelError` is raised, the provider
field and the three `simulation_mode` flags have already been switched to
real mode and are not rolled back. -/
theorem claim8_atomicity (c : AIConfig) (p : AIProvider) :
    ((enableRealAi c p).1 = .error (.invalidAPIKey p.value) →
      (enableRealAi c p).2 = c)
    ∧ (∀ a m, (enableRealAi c p).1 = .error (.unsupportedModel a m) →
        (enableRealAi c p).2 = c.withRealMode p) := by
  unfold enableRealAi
  split_ifs with hv
  · refine ⟨fun h => ?_, fun a m h => rfl⟩
    obtain ⟨a, m, hh⟩ := validateConfigs_error_shape _ _ h
    exact AIConfigError.noConfusion hh
  · exact ⟨fun _ => rfl, fun a m h => by simp at h⟩

/-- C8, witness: the atomicity theorem applied at a key-less configuration
(credential error, state preserved) and at `badModelConfig` (model-support
error, state left in real mode). -/
theorem claim8_atomicity_witness :
    (enableRealAi noKeyConfig .openai).2 = noKeyConfig
    ∧ (enableRealAi badModelConfig .openai).2 = badModelConfig.withRealMode .openai :=
  ⟨(claim8_atomicity noKeyConfig .openai).1 (by decide),
   (claim8_atomicity badModelConfig .openai).2 "research" "bad-model" (by decide)⟩

/-- C10: in every configuration state reachable through the public
operations, each capability's model keeps its constructed default, the
defaults are in the allowlists, and `enable_real_ai` can never raise
`UnsupportedModelError` from such a state. -/
theorem claim10_model_invariant (c : AIConfig) (h : ReachableConfig c) :
    c.research_config.model = "gpt-4-1106-preview"
    ∧ c.writing_config.model = "gpt-4-1106-preview"
    ∧ c.image_config.model = "dall-e-3"
    ∧ c.research_config.model ∈ supportedChatModels
    ∧ c.writing_config.model ∈ supportedChatModels
    ∧ c.image_config.model ∈ supportedImageModels
    ∧ ∀ p a m, (enableRealAi c p).1 ≠ .error (.unsupportedModel a m) := by
  have key : c.research_config.model = "gpt-4-1106-preview"
      ∧ c.writing_config.model = "gpt-4-1106-preview"
      ∧ c.image_config.model = "dall-e-3" := by
    induction h with
    | init keys => exact ⟨rfl, rfl, rfl⟩
    | enable c' p hc ih =>
      obtain ⟨m1, m2, m3⟩ := enableRealAi_preserves_models c' p
      exact ⟨m1.trans ih.1, m2.trans ih.2.1, m3.trans ih.2.2⟩
  obtain ⟨k1, k2, k3⟩ := key
  have hr : c.research_config.model ∈ supportedChatModels := by rw [k1]; decide
  have hw : c.writing_config.model ∈ supportedChatModels := by rw [k2]; decide
  have hi : c.image_config.model ∈ supportedImageModels := by rw [k3]; decide
  exact ⟨k1, k2, k3, hr, hw, hi, enableRealAi_no_unsupported c hr hw hi⟩

/-- C10, witness: the invariant applied to the freshly constructed
configuration with no keys. -/
theorem claim10_model_invariant_witness :
    noKeyConfig.research_config.model = "gpt-4-1106-preview" :=
  (claim10_model_invariant noKeyConfig
    (ReachableConfig.init ⟨none, none, none⟩)).1

/-- `AIConfig.__init__`'s closing `_validate_configs()` call never raises:
every capability starts in simulation mode. -/
theorem mkInit_validates (keys : ApiKeys) :
    validateConfigs (AIConfig.mkInit keys) = .ok () := rfl

/-! ## Word-count lemmas -/

/-- Unfolding equation for the counting automaton. -/
theorem countWordsAux_cons (c : Char) (l : List Char) (f : Bool) :
    countWordsAux (c :: l) f =
      if pyIsSpace c then countWordsAux l false
      else (if f then 0 else 1) + countWordsAux l true := rfl

/-- Entering the automaton mid-word can only lower the count. -/
theorem countWordsAux_true_le (l : List Char) :
    ∀ f, countWordsAux l true ≤ countWordsAux l f := by
  induction l with
  | nil => intro f; exact Nat.le_refl 0
  | cons c cs ih =>
    intro f
    rw [countWordsAux_cons, countWordsAux_cons]
    by_cases hc : pyIsSpace c
    · simp only [hc, if_true]
      exact Nat.le_refl _
    · simp only [hc, Bool.false_eq_true, if_false]
      cases f
      · exact Nat.add_le_add_right (Nat.zero_le 1) _
      · exact Nat.le_refl _

/-- A string keeps at least the token count of any suffix (minus the token
possibly merged at the boundary, accounted for by the `true` entry flag). -/
theorem countWordsAux_append (a b : List Char) :
    ∀ f, countWordsAux b true ≤ countWordsAux (a ++ b) f := by
  induction a with
  | nil => intro f; exact countWordsAux_true_le b f
  | cons c cs ih =>
    intro f
    show countWordsAux b true ≤ countWordsAux (c :: (cs ++ b)) f
    rw [countWordsAux_cons]
    by_cases hc : pyIsSpace c
    · simp only [hc, if_true]
      exact ih false
    · simp only [hc, Bool.false_eq_true, if_false]
      exact Nat.le_trans (ih true) (Nat.le_add_left _ _)

/-- `String.append` concatenates the underlying character lists. -/
theorem string_data_append (x y : String) : (x ++ y).data = x.data ++ y.data := rfl

/-- Word-count lower bound from a fixed suffix. -/
theorem countWords_append_ge_tail (x tail : String) :
    countWordsAux tail.data true ≤ countWords (x ++ tail) := by
  unfold countWords
  rw [string_data_append]
  exact countWordsAux_append x.data tail.data false

set_option maxRecDepth 10000 in
/-- The fixed boilerplate tail of the writing template alone has 153
whitespace-separated tokens. -/
theorem writingTail_count : countWordsAux writingTail.data true = 153 := by decide

/-- Every article produced by the writing templater has at least 100
whitespace-separated tokens, independent of the brief. -/
theorem writing_template_wordcount (brief : WritingBrief) :
    100 ≤ countWords (get_enhanced_writing_content brief) := by
  have h := countWords_append_ge_tail
    (writingSeg1 ++ brief.title ++ writingSeg2 ++ brief.executive_summary ++ writingSeg3
      ++ String.join (brief.key_points.map (fun point => "<li>" ++ point ++ "</li>")))
    writingTail
  rw [writingTail_count] at h
  exact Nat.le_trans (by norm_num) h

/-- The simulation block of the writer never hits the `ge=100` validation
error: it returns the templated article with its exact token count. -/
theorem writerSimulationBlock_ok (req : WriterRequest) :
    writerSimulationBlock req =
      .ok ⟨get_enhanced_writing_content ⟨req.title, req.executive_summary, req.key_points⟩,
           req.keywords,
           countWords (get_enhanced_writing_content
             ⟨req.title, req.executive_summary, req.key_points⟩),
           req.tone⟩ := by
  unfold writerSimulationBlock mkWriterResponse
  rw [if_neg]
  have := writing_template_wordcount
    ⟨req.title, req.executive_summary, req.key_points⟩
  omega

/-- Shape of a successfully constructed `WriterResponse`. -/
theorem mkWriterResponse_ok_shape (a : String) (k : List String) (t : String)
    (r : WriterResponse) (h : mkWriterResponse a k t = .ok r) :
    r.article_text = a ∧ r.word_count = countWords a ∧ 100 ≤ r.word_count := by
  unfold mkWriterResponse at h
  split_ifs at h with hc
  cases h
  refine ⟨rfl, rfl, ?_⟩
  show 100 ≤ countWords a
  omega

/-- Unfolding equations for `writerProcessValidated`: in simulation mode,
and on each failure outcome in real mode, the simulation block runs; a
successful call hands its article to the response constructor. -/
theorem writerProcessValidated_eqs (req : WriterRequest) :
    (∀ api, writerProcessValidated true req api = writerSimulationBlock req)
    ∧ writerProcessValidated false req .clientInitError = writerSimulationBlock req
    ∧ writerProcessValidated false req .noClient = writerSimulationBlock req
    ∧ writerProcessValidated false req .callFailed = writerSimulationBlock req
    ∧ writerProcessValidated false req .invalidResponse = writerSimulationBlock req
    ∧ ∀ a, writerProcessValidated false req (.success a) =
        (match mkWriterResponse a req.keywords req.tone with
         | .ok r => .ok r
         | .error _ => writerSimulationBlock req) := by
  refine ⟨fun api => ?_, ?_, ?_, ?_, ?_, fun a => ?_⟩ <;>
    (unfold writerProcessValidated; simp)

/-! ## Claims about the agents -/

/-- On every path, the writer's `process` returns a response whose
`word_count` is the whitespace-token count of its `article_text` and is at
least 100. -/
theorem writerProcess_ok_bound (simMode : Bool) (req : WriterRequest)
    (api : ApiOutcome String) :
    ∃ w, writerProcessValidated simMode req api = .ok w
      ∧ w.word_count = countWords w.article_text
      ∧ 100 ≤ w.word_count := by
  have hsim : ∃ w, writerSimulationBlock req = .ok w
      ∧ w.word_count = countWords w.article_text ∧ 100 ≤ w.word_count :=
    ⟨⟨get_enhanced_writing_content ⟨req.title, req.executive_summary, req.key_points⟩,
      req.keywords,
      countWords (get_enhanced_writing_content
        ⟨req.title, req.executive_summary, req.key_points⟩),
      req.tone⟩,
     writerSimulationBlock_ok req, rfl,
     writing_template_wordcount ⟨req.title, req.executive_summary, req.key_points⟩⟩
  cases simMode with
  | true =>
    rw [(writerProcessValidated_eqs req).1 api]
    exact hsim
  | false =>
    cases api with
    | success article_html =>
      rw [(writerProcessValidated_eqs req).2.2.2.2.2 article_html]
      cases hmk : mkWriterResponse article_html req.keywords req.tone with
      | ok r =>
        obtain ⟨h1, h2, h3⟩ := mkWriterResponse_ok_shape _ _ _ _ hmk
        exact ⟨r, rfl, by rw [h2, h1], h3⟩
      | error e => exact hsim
    | clientInitError => rw [(writerProcessValidated_eqs req).2.1]; exact hsim
    | noClient => rw [(writerProcessValidated_eqs req).2.2.1]; exact hsim
    | callFailed => rw [(writerProcessValidated_eqs req).2.2.2.1]; exact hsim
    | invalidResponse => rw [(writerProcessValidated_eqs req).2.2.2.2.1]; exact hsim

/-- C5: for every valid writer request, on both the simulation path and the
real path (where a sub-100 real article is rejected by the response
validation and replaced by the simulation fallback), `process` returns a
response whose `word_count` equals the whitespace-token count of its
`article_text` and is at least 100. -/
theorem claim5_writer_word_count (simMode : Bool) (req : WriterRequest)
    (api : ApiOutcome String) :
    ∃ w, writerProcessValidated simMode req api = .ok w
      ∧ w.word_count = countWords w.article_text
      ∧ 100 ≤ w.word_count :=
  writerProcess_ok_bound simMode req api

/-- C1: with a valid request in real (non-simulation) mode, every failure
outcome of the external-API call path — client-initialization failure,
absent client, network error, malformed response, schema-invalid payload —
is caught and the agent returns the templater/simulation result;
`process` returns normally (never an exception) for every outcome, for both
the research and the writer agent. -/
theorem claim1_external_failure_fallback (topic : String) (depth : ℤ)
    (hd : 1 ≤ depth ∧ depth ≤ 3) (rapi : ApiOutcome ResearchContent)
    (req : WriterRequest) (wapi : ApiOutcome String) :
    (∃ r, researchProcess topic depth false rapi = .ok r)
    ∧ ((rapi = .clientInitError ∨ rapi = .noClient ∨ rapi = .callFailed
        ∨ rapi = .invalidResponse
        ∨ ∃ p, rapi = .success p ∧ ¬ researchResponseValid p) →
        researchProcess topic depth false rapi =
          .ok (get_enhanced_research_content topic))
    ∧ (∃ w, writerProcessValidated false req wapi = .ok w)
    ∧ ((wapi = .clientInitError ∨ wapi = .noClient ∨ wapi = .callFailed
        ∨ wapi = .invalidResponse) →
        writerProcessValidated false req wapi = writerSimulationBlock req) := by
  have hval : validateResearchRequest topic depth = .ok ⟨topic, depth⟩ := by
    unfold validateResearchRequest
    rw [if_pos hd]
  refine ⟨?_, ?_, ?_, ?_⟩
  · exact ⟨_, by unfold researchProcess; rw [hval]⟩
  · intro hfail
    unfold researchProcess
    rw [hval]
    rcases hfail with h | h | h | h | ⟨p, hp, hv⟩
    · subst h; rfl
    · subst h; rfl
    · subst h; rfl
    · subst h; rfl
    · subst hp
      show Except.ok
        (if researchResponseValid p then p else get_enhanced_research_content topic) = _
      rw [if_neg hv]
  · obtain ⟨w, hw, _, _⟩ := writerProcess_ok_bound false req wapi
    exact ⟨w, hw⟩
  · intro hfail
    rcases hfail with h | h | h | h
    · rw [h, (writerProcessValidated_eqs req).2.1]
    · rw [h, (writerProcessValidated_eqs req).2.2.1]
    · rw [h, (writerProcessValidated_eqs req).2.2.2.1]
    · rw [h, (writerProcessValidated_eqs req).2.2.2.2.1]

/-- C1, witness: applied at depth 2 with a failing research call and a
failing writer call. -/
theorem claim1_external_failure_fallback_witness :
    researchProcess "AI" 2 false .callFailed = .ok (get_enhanced_research_content "AI") :=
  (claim1_external_failure_fallback "AI" 2 (by decide) .callFailed
    ⟨"t", "s", ["p"], [], "professional"⟩ .callFailed).2.1
    (Or.inr (Or.inr (Or.inl rfl)))

/-- C4: the content templaters are pure functions of their input — repeated
calls agree definitionally (the source performs no I/O and no randomness) —
and for a non-empty topic the research template has at least 4 key points
(it has 5) and confidence within [0, 1] (it is 0.926). -/
theorem claim4_templater_properties (topic : String) (htop : topic ≠ "")
    (brief : WritingBrief) :
    get_enhanced_research_content topic = get_enhanced_research_content topic
    ∧ get_enhanced_writing_content brief = get_enhanced_writing_content brief
    ∧ 4 ≤ (get_enhanced_research_content topic).key_points.length
    ∧ 0 ≤ (get_enhanced_research_content topic).research_confidence
    ∧ (get_enhanced_research_content topic).research_confidence ≤ 1 := by
  refine ⟨rfl, rfl, ?_, ?_, ?_⟩
  · show 4 ≤ 5
    omega
  · show (0 : ℚ) ≤ 926/1000
    norm_num
  · show (926/1000 : ℚ) ≤ 1
    norm_num

/-- C4, witness: the templater theorem applied at the topic `"AI"`. -/
theorem claim4_templater_properties_witness :
    4 ≤ (get_enhanced_research_content "AI").key_points.length :=
  (claim4_templater_properties "AI" (by decide) ⟨"t", "s", ["p"]⟩).2.2.1

/-- C9: the research agent accepts an empty topic — `{topic: "", depth: d}`
with `d ∈ 1..3` validates and `process` returns the templated result with
the empty topic interpolated — unlike the writer agent, which rejects an
empty title, and the image agent, which rejects an empty prompt. -/
theorem claim9_empty_topic (d : ℤ) (h1 : 1 ≤ d) (h3 : d ≤ 3) :
    validateResearchRequest "" d = .ok ⟨"", d⟩
    ∧ (∀ api, researchProcess "" d true api =
        .ok (get_enhanced_research_content ""))
    ∧ (get_enhanced_research_content "").title = "Strategic Analysis: "
    ∧ (∀ s kp kw t, validateWriterRequest "" s kp kw t =
        .error "Title cannot be empty")
    ∧ (∀ st sz q, validateImageRequest "" st sz q =
        .error "Prompt cannot be empty") := by
  have hval : validateResearchRequest "" d = .ok ⟨"", d⟩ := by
    unfold validateResearchRequest
    rw [if_pos ⟨h1, h3⟩]
  refine ⟨hval, ?_, ?_, ?_, ?_⟩
  · intro api
    unfold researchProcess
    rw [hval]
    rfl
  · show "Strategic Analysis: " ++ "" = "Strategic Analysis: "
    exact congrArg String.mk (List.append_nil _)
  · intro s kp kw t
    unfold validateWriterRequest
    rw [if_pos (show (pyStrip "" = "") from rfl)]
  · intro st sz q
    unfold validateImageRequest
    rw [if_pos (show (pyStrip "" = "") from rfl)]

/-- C9, witness: applied at depth 2. -/
theorem claim9_empty_topic_witness :
    validateResearchRequest "" 2 = .ok ⟨"", 2⟩ :=
  (claim9_empty_topic 2 (by decide) (by decide)).1

/-- A string contains itself. -/
theorem strContains_refl (pat : String) : strContains pat pat :=
  ⟨[], [], by simp⟩

/-- Containment is preserved by appending on the right. -/
theorem strContains_appL (s t pat : String) (h : strContains s pat) :
    strContains (s ++ t) pat := by
  obtain ⟨a, b, hab⟩ := h
  exact ⟨a, b ++ t.data, by rw [string_data_append, hab]; simp⟩

/-- Containment is preserved by appending on the left. -/
theorem strContains_appR (s t pat : String) (h : strContains t pat) :
    strContains (s ++ t) pat := by
  obtain ⟨a, b, hab⟩ := h
  exact ⟨s.data ++ a, b, by rw [string_data_append, hab]; simp⟩

/-- C6, counterexample: the library image agent's simulation path
(`src/agents/image.py`) returns the literal fixed placeholder
`b"SIMULATED_IMAGE_DATA"`: two requests that differ (so in particular whose
derived keywords differ) receive the identical identifier, and it is a
fixed constant rather than a content hash. -/
theorem claim6_counterexample :
    (imageProcessValidated true
        ⟨"A sunset", "professional", "1024x1024", "standard"⟩ .noClient).image_data
      = "SIMULATED_IMAGE_DATA"
    ∧ (imageProcessValidated true
        ⟨"Mountain peaks", "professional", "1024x1024", "standard"⟩ .noClient).image_data
      = "SIMULATED_IMAGE_DATA"
    ∧ ("A sunset" : String) ≠ "Mountain peaks" :=
  ⟨rfl, rfl, by decide⟩

set_option maxRecDepth 100000 in
/-- C6 (amended): the demo orchestrator's image agent
(`enhanced_demo.ImageAgent._generate_simulation_image`) derives its
placeholder identifier from an MD5 content hash of the space-joined first
three keywords — keyword lists agreeing on their first three entries give
the identical URL, and concretely differing keywords give different URLs —
while the library image agent's (`src/agents/image.py`) simulation path
instead returns the literal fixed constant `"SIMULATED_IMAGE_DATA"`
independent of the request. -/
theorem claim6_sim_image (k1 k2 : List String) (h : k1.take 3 = k2.take 3) :
    (generateSimulationImage k1).image_url = (generateSimulationImage k2).image_url
    ∧ (generateSimulationImage ["ai"]).image_url
        ≠ (generateSimulationImage ["tech"]).image_url
    ∧ ∀ (req : ImageRequest) (api : ApiOutcome String),
        (imageProcessValidated true req api).image_data = "SIMULATED_IMAGE_DATA" := by
  refine ⟨?_, ?_, fun req api => rfl⟩
  · show "https://picsum.photos/seed/"
        ++ (⟨((md5Hex (utf8Bytes (pyJoinSpace (k1.take 3)))).data.take 12)⟩ : String)
        ++ "/800/400" = _
    rw [h]
    rfl
  · decide

/-- C6, witness: two keyword lists agreeing on their first three entries
give the identical placeholder URL. -/
theorem claim6_sim_image_witness :
    (generateSimulationImage ["a", "b", "c", "d"]).image_url
      = (generateSimulationImage ["a", "b", "c", "e"]).image_url :=
  (claim6_sim_image ["a", "b", "c", "d"] ["a", "b", "c", "e"] (by decide)).1

/-- C7: the demo orchestrator run on `"Electric Vehicles"` with every
capability in simulation mode (for any timestamp `ts`) yields a rendered
document containing the literal substring `"Electric Vehicles"`, all three
per-stage model-used labels equal to `"Enhanced Simulation"`, and a keyword
list of length at least 1. -/
theorem claim7_pipeline_sim (ts : String) :
    strContains (orchestratorRunSim "Electric Vehicles" ts).html "Electric Vehicles"
    ∧ (orchestratorRunSim "Electric Vehicles" ts).research_model_used
        = "Enhanced Simulation"
    ∧ (orchestratorRunSim "Electric Vehicles" ts).writer_model_used
        = "Enhanced Simulation"
    ∧ (orchestratorRunSim "Electric Vehicles" ts).image_model_used
        = "Enhanced Simulation"
    ∧ 1 ≤ (orchestratorRunSim "Electric Vehicles" ts).keywords.length := by
  refine ⟨?_, rfl, rfl, rfl, ?_⟩
  · iterate 27 apply strContains_appL
    apply strContains_appR
    show strContains ("Strategic Analysis: " ++ "Electric Vehicles") "Electric Vehicles"
    apply strContains_appR
    exact strContains_refl "Electric Vehicles"
  · show (1 : Nat) ≤ 6
    omega

end ArdorBlog
